import Mathlib

/-!
Shallow embedding of domahidizoltan/go-concurrency-exercises.

Conventions of the embedding:
* Wall-clock time is modelled as nonnegative milliseconds since an arbitrary
  epoch (a `Nat`), so the 10 ms backward tolerance of the sweep comparison
  and the 5 s TTL are both exact. Go time values are never before the epoch
  in any reachable state here, so truncated `Nat` subtraction agrees with
  `time.Time.Add` of a negative duration at every point the code evaluates it.
* The three Go maps of `SessionManager` are modelled as `Option`-valued
  functions, so that a key being absent (Go `delete` / missing key) is
  distinguished from a key mapping to an empty value.
* Go functions that mutate the receiver are state transformers
  `SessionManager -> result x SessionManager`; the mutex only serialises the
  critical sections, so each locked region is one atomic transition. The
  reclaimer releases the lock between its two phases, hence the two phases
  `collectExpired` and `sweepPhase2` are separate transitions and other
  operations may interleave between them; `sweep` is the uninterleaved
  composition of the two.
* The untyped payload `map[string]interface{}` is an association list over an
  arbitrary value type `V`; the code never inspects payload contents.
* `MakeSessionID` is not part of the sources; its outcome is passed to
  `CreateSession` as an explicit `Except` argument.
-/

namespace SessionCleaner

/-- `const ttlSeconds = 5` from src/5-session-cleaner/main.go. -/
def ttlSeconds : Nat := 5

/-- Session stores the session data (`Session` with `Data map[string]interface{}`). -/
structure Session (V : Type) where
  Data : List (String × V)
deriving Repr, DecidableEq

/-- The three maps of Go `SessionManager`: `sessions`, `sessionExpirations`
(SessionID to absolute expiration time) and `expirationChecks`
(bucket key to slice of SessionIDs). -/
structure SessionManager (V : Type) where
  sessions : String → Option (Session V)
  sessionExpirations : String → Option Nat
  expirationChecks : String → Option (List String)

/-- `NewSessionManager` initialises all three maps empty. -/
def emptyManager (V : Type) : SessionManager V :=
  { sessions := fun _ => none
    sessionExpirations := fun _ => none
    expirationChecks := fun _ => none }

/-- `ErrSessionNotFound = errors.New("SessionID does not exists")`. -/
def ErrSessionNotFound : String := "SessionID does not exists"

/-- `time.Time.Second()`: the seconds component of the clock, 0 to 59,
for a time of `t` milliseconds. -/
def secondOf (t : Nat) : Nat := t / 1000 % 60

/-- `strconv.Itoa(t.Second())`: the bucket key used by both
`updateSessionExpiration` and `removeExpiredSessionsWorker`. -/
def bucketKey (t : Nat) : String := Nat.repr (secondOf t)

/-- `updateSessionExpiration`: store `expireAt = now + ttlSeconds` in
`sessionExpirations` and append the ID to `expirationChecks` under
`strconv.Itoa(expireAt.Second())`. -/
def updateSessionExpiration {V : Type} (now : Nat) (sessionID : String)
    (m : SessionManager V) : SessionManager V :=
  let expireAt := now + ttlSeconds * 1000
  let key := bucketKey expireAt
  { m with
    sessionExpirations := fun id =>
      if id = sessionID then some expireAt else m.sessionExpirations id
    expirationChecks := fun k =>
      if k = key then some (((m.expirationChecks key).getD []) ++ [sessionID])
      else m.expirationChecks k }

/-- `CreateSession`: on `MakeSessionID` failure return `("", err)` without
touching the maps; on success insert an empty-payload session and renew its
expiration, returning `(sessionID, nil)`. The result of `MakeSessionID` is the
`genResult` argument. -/
def CreateSession {V : Type} (genResult : Except String String) (now : Nat)
    (m : SessionManager V) : (String × Option String) × SessionManager V :=
  match genResult with
  | Except.error err => (("", some err), m)
  | Except.ok sessionID =>
      let m1 : SessionManager V :=
        { m with sessions := fun id =>
            if id = sessionID then some { Data := [] } else m.sessions id }
      ((sessionID, none), updateSessionExpiration now sessionID m1)

/-- `GetSessionData`: look the session up under `RLock`; error with
`ErrSessionNotFound` when absent, otherwise return its `Data`. The second
component is the state of the manager after the call. -/
def GetSessionData {V : Type} (sessionID : String) (m : SessionManager V) :
    Except String (List (String × V)) × SessionManager V :=
  match m.sessions sessionID with
  | none => (Except.error ErrSessionNotFound, m)
  | some session => (Except.ok session.Data, m)

/-- `UpdateSessionData`: error with `ErrSessionNotFound` when the ID is absent;
otherwise overwrite the whole session with `Session{Data: data}` and renew the
expiration. -/
def UpdateSessionData {V : Type} (sessionID : String) (data : List (String × V))
    (now : Nat) (m : SessionManager V) : Option String × SessionManager V :=
  match m.sessions sessionID with
  | none => (some ErrSessionNotFound, m)
  | some _ =>
      let m1 : SessionManager V :=
        { m with sessions := fun id =>
            if id = sessionID then some { Data := data } else m.sessions id }
      (none, updateSessionExpiration now sessionID m1)

/-- Phase 1 of `removeExpiredSessionsWorker` (under `RLock`): from the bucket
keyed by the seconds component of `now`, keep the IDs whose stored expiration,
moved 10 ms backwards, is strictly before `now`. -/
def collectExpired {V : Type} (now : Nat) (m : SessionManager V) : List String :=
  ((m.expirationChecks (bucketKey now)).getD []).filter fun sID =>
    match m.sessionExpirations sID with
    | some exp => decide (exp - 10 < now)
    | none => false

/-- Phase 2 of `removeExpiredSessionsWorker` (under `Lock`): delete every
collected ID from `sessions` and `sessionExpirations`, then delete the whole
bucket for `key`. No further lookup of `sessionExpirations` happens here. -/
def sweepPhase2 {V : Type} (key : String) (expiredSessionIDs : List String)
    (m : SessionManager V) : SessionManager V :=
  { sessions := fun id =>
      if id ∈ expiredSessionIDs then none else m.sessions id
    sessionExpirations := fun id =>
      if id ∈ expiredSessionIDs then none else m.sessionExpirations id
    expirationChecks := fun k =>
      if k = key then none else m.expirationChecks k }

/-- One full tick of `removeExpiredSessionsWorker` with nothing interleaved
between the two phases. -/
def sweep {V : Type} (now : Nat) (m : SessionManager V) : SessionManager V :=
  sweepPhase2 (bucketKey now) (collectExpired now m) m

/-- The invariant of the spec: a session ID has an entry in `sessions` exactly
when it has one in `sessionExpirations`. -/
def inSync {V : Type} (m : SessionManager V) : Prop :=
  ∀ sessionID, (m.sessions sessionID).isSome ↔ (m.sessionExpirations sessionID).isSome

/-- A manager holding the single session `s`, created at time 0 ms, so its
expiration is 5000 ms and it is filed in the bucket keyed `5`. -/
def oneSessionManager : SessionManager Nat :=
  (CreateSession (Except.ok "s") 0 (emptyManager Nat)).2

/-- The run refuting the expiration-window claim: the manager is created at
0 ms, so the ticker fires at 1000 ms, 2000 ms, ...; the single session is
created at 500 ms (expiration 5500 ms, bucket `5`) and never touched again;
all seven ticks up to 7000 ms are applied. -/
def leakRun : SessionManager Nat :=
  sweep 7000 (sweep 6000 (sweep 5000 (sweep 4000 (sweep 3000 (sweep 2000 (sweep 1000
    ((CreateSession (Except.ok "s") 500 (emptyManager Nat)).2)))))))

/-- The interleaving refuting the deletion-phase re-check claim: phase 1 of a
sweep at 5990 ms collects `s` (stored expiration 5000 ms) as a candidate. -/
def raceCandidates : List String := collectExpired 5990 oneSessionManager

/-- Between the two phases of that sweep, an update at 5995 ms renews `s`,
moving its authoritative expiration to 10995 ms. -/
def raceRenewed : SessionManager Nat :=
  (UpdateSessionData "s" [("website", 1)] 5995 oneSessionManager).2

/-- Phase 2 of the same sweep then runs on the renewed state with the stale
candidate list. -/
def raceAfterSweep : SessionManager Nat :=
  sweepPhase2 (bucketKey 5990) raceCandidates raceRenewed

end SessionCleaner

namespace LimitServiceTime

/-- `const maxFreeProcessingTimeSeconds = 10` from src/3-limit-service-time/main.go. -/
def maxFreeProcessingTimeSeconds : Int := 10

/-- The Go `User` struct; `TimeUsed` is an `int64` count of seconds. -/
structure User where
  ID : Int
  IsPremium : Bool
  TimeUsed : Int
deriving Repr, DecidableEq

/-- The cutoff condition of the ticker goroutine, checked after each
increment: `!u.IsPremium && u.TimeUsed >= maxFreeProcessingTimeSeconds-1`. -/
def freeTimeExhausted (u : User) : Bool :=
  !u.IsPremium && decide (u.TimeUsed ≥ maxFreeProcessingTimeSeconds - 1)

/-- The ticker goroutine of `HandleRequest`, driven for at most `n` ticks (the
number of whole seconds the `process()` call takes before it signals `doneCh`):
each tick adds one second to `TimeUsed`, and the loop stops early when the
cutoff condition fires (the goroutine then signals `doneCh` itself). -/
def runTicker : Nat → User → User
  | 0, u => u
  | n + 1, u =>
      let u1 : User := { u with TimeUsed := u.TimeUsed + 1 }
      if freeTimeExhausted u1 then u1 else runTicker n u1

/-- `HandleRequest`: whichever goroutine signals `doneCh` first, the function
falls through to the single `return true` statement; the user state is the one
left by the ticker goroutine. -/
def HandleRequest (ticksBeforeProcessDone : Nat) (u : User) : User × Bool :=
  (runTicker ticksBeforeProcessDone u, true)

end LimitServiceTime

namespace SessionCleaner

/-- Claim C1 (code bug witness run): with the ticker phase-shifted 500 ms ahead
of the session, the session created at T = 500 ms is still readable at
T + 7 s = 7500 ms after every tick up to 7000 ms has run: the tick at 5000 ms
is the only one whose bucket key matches, but 5500 - 10 ms is not before
5000 ms, so the session is not collected, yet the whole bucket is dropped, so
no later tick can ever find it. Its index entry is still 5500 and its bucket is
gone, contradicting deletion no later than T + TTL + 2 s. -/
theorem session_survives_past_ttl_plus_two :
    (GetSessionData "s" leakRun).1 = Except.ok [] ∧
    leakRun.sessionExpirations "s" = some 5500 ∧
    leakRun.expirationChecks (bucketKey 5500) = none :=
  ⟨rfl, rfl, rfl⟩

/-- Claim C2 (code bug witness run): phase 1 at 5990 ms collects `s`; an
update at 5995 ms then renews its authoritative expiration to 10995 ms, after
now; phase 2 nevertheless deletes `s` from both `sessions` and
`sessionExpirations`, because the deletion loop never re-checks the index. -/
theorem renewed_session_deleted_by_stale_candidate_list :
    raceCandidates = ["s"] ∧
    raceRenewed.sessionExpirations "s" = some 10995 ∧
    5995 < 10995 ∧
    raceAfterSweep.sessions "s" = none ∧
    raceAfterSweep.sessionExpirations "s" = none :=
  ⟨rfl, rfl, by decide, rfl, rfl⟩

/-- Claim C3: a successful update wholesale-replaces the payload, sets the
index entry to now + TTL, appends the ID to the bucket of the new expiration,
and leaves every other bucket (in particular the stale earlier ones) as it
was. -/
theorem updateSessionData_success {V : Type} (sessionID : String)
    (data : List (String × V)) (now : Nat) (m : SessionManager V)
    (s : Session V) (h : m.sessions sessionID = some s) :
    (UpdateSessionData sessionID data now m).1 = none ∧
    (UpdateSessionData sessionID data now m).2.sessions sessionID = some { Data := data } ∧
    (UpdateSessionData sessionID data now m).2.sessionExpirations sessionID =
      some (now + ttlSeconds * 1000) ∧
    (UpdateSessionData sessionID data now m).2.expirationChecks
        (bucketKey (now + ttlSeconds * 1000)) =
      some (((m.expirationChecks (bucketKey (now + ttlSeconds * 1000))).getD []) ++ [sessionID]) ∧
    ∀ k, k ≠ bucketKey (now + ttlSeconds * 1000) →
      (UpdateSessionData sessionID data now m).2.expirationChecks k = m.expirationChecks k := by
  refine ⟨?_, ?_, ?_, ?_, ?_⟩ <;>
    simp [UpdateSessionData, h, updateSessionExpiration]
  intro k hk
  simp [hk]

/-- Witness for claim C3 at a concrete input. -/
theorem updateSessionData_success_witness :
    (UpdateSessionData "s" [("website", (1 : Nat))] 6000 oneSessionManager).1 = none ∧
    (UpdateSessionData "s" [("website", (1 : Nat))] 6000 oneSessionManager).2.sessions "s" =
      some { Data := [("website", 1)] } :=
  ⟨(updateSessionData_success "s" [("website", 1)] 6000 oneSessionManager { Data := [] } rfl).1,
   (updateSessionData_success "s" [("website", 1)] 6000 oneSessionManager { Data := [] } rfl).2.1⟩

/-- Claim C4: Get and Update return `ErrSessionNotFound` exactly when the ID
is absent from `sessions`; on a present ID, Get returns the payload and no
error and Update returns no error. -/
theorem notFound_iff_absent {V : Type} (sessionID : String) (d : List (String × V))
    (now : Nat) (m : SessionManager V) :
    ((GetSessionData sessionID m).1 = Except.error ErrSessionNotFound ↔
      m.sessions sessionID = none) ∧
    ((UpdateSessionData sessionID d now m).1 = some ErrSessionNotFound ↔
      m.sessions sessionID = none) ∧
    ∀ s, m.sessions sessionID = some s →
      (GetSessionData sessionID m).1 = Except.ok s.Data ∧
      (UpdateSessionData sessionID d now m).1 = none := by
  rcases hm : m.sessions sessionID with _ | s <;>
    simp [GetSessionData, UpdateSessionData, hm]

/-- Witness for claim C4 at a concrete input. -/
theorem notFound_iff_absent_witness :
    (GetSessionData "s" oneSessionManager).1 = Except.ok (Session.Data { Data := [] }) ∧
    (UpdateSessionData "s" [("website", (1 : Nat))] 100 oneSessionManager).1 = none :=
  (notFound_iff_absent "s" [("website", (1 : Nat))] 100 oneSessionManager).2.2
    { Data := [] } rfl

/-- Claim C5: when identifier generation fails, CreateSession returns the
error with an empty ID and the whole manager (all three maps) is returned
untouched; on success it returns the fresh ID with no error and the new ID
holds an empty-payload session. -/
theorem createSession_error_leaves_state {V : Type} (e sid : String) (now : Nat)
    (m : SessionManager V) :
    CreateSession (Except.error e) now m = (("", some e), m) ∧
    (CreateSession (Except.ok sid) now m).1 = (sid, none) ∧
    (CreateSession (Except.ok sid) now m).2.sessions sid = some { Data := [] } := by
  refine ⟨rfl, rfl, ?_⟩
  simp [CreateSession, updateSessionExpiration]

/-- Claim C6: GetSessionData changes none of the three maps. -/
theorem getSessionData_state_unchanged {V : Type} (sessionID : String)
    (m : SessionManager V) :
    (GetSessionData sessionID m).2.sessions = m.sessions ∧
    (GetSessionData sessionID m).2.sessionExpirations = m.sessionExpirations ∧
    (GetSessionData sessionID m).2.expirationChecks = m.expirationChecks := by
  rcases hm : m.sessions sessionID with _ | s <;> simp [GetSessionData, hm]

/-- Claim C7: every operation, and an uninterleaved sweep, preserves the
invariant that `sessions` and `sessionExpirations` have the same key set. -/
theorem operations_preserve_inSync {V : Type} (g : Except String String)
    (sessionID : String) (d : List (String × V)) (now t : Nat)
    (m : SessionManager V) (hm : inSync m) :
    inSync (CreateSession g now m).2 ∧
    inSync (UpdateSessionData sessionID d now m).2 ∧
    inSync (GetSessionData sessionID m).2 ∧
    inSync (sweep t m) := by
  refine ⟨?_, ?_, ?_, ?_⟩
  · cases g with
    | error e => exact hm
    | ok sid =>
        intro id
        by_cases hid : id = sid <;>
          simp [CreateSession, updateSessionExpiration, hid, hm id]
  · rcases hs : m.sessions sessionID with _ | s
    · simpa [UpdateSessionData, hs] using hm
    · intro id
      by_cases hid : id = sessionID <;>
        simp [UpdateSessionData, hs, updateSessionExpiration, hid, hm id]
  · rcases hs : m.sessions sessionID with _ | s <;>
      simpa [GetSessionData, hs] using hm
  · intro id
    by_cases hmem : id ∈ collectExpired t m <;>
      simp [sweep, sweepPhase2, hmem, hm id]

/-- Witness for claim C7 at a concrete input. -/
theorem operations_preserve_inSync_witness :
    inSync (CreateSession (Except.ok "s") 0 (emptyManager Nat)).2 :=
  (operations_preserve_inSync (Except.ok "s") "s" ([] : List (String × Nat)) 0 0
    (emptyManager Nat) (fun _ => Iff.rfl)).1

/-- Claim C8: a sweep deletes every confirmed-stale candidate from both the
session table and the expiration index, and drops the whole bucket for the
key of that tick. -/
theorem sweep_deletes_confirmed_and_drops_bucket {V : Type} (now : Nat)
    (m : SessionManager V) (sID : String) (h : sID ∈ collectExpired now m) :
    (sweep now m).sessions sID = none ∧
    (sweep now m).sessionExpirations sID = none ∧
    (sweep now m).expirationChecks (bucketKey now) = none := by
  simp [sweep, sweepPhase2, h]

/-- Witness for claim C8 at a concrete input. -/
theorem sweep_deletes_confirmed_and_drops_bucket_witness :
    (sweep 5990 oneSessionManager).sessions "s" = none ∧
    (sweep 5990 oneSessionManager).sessionExpirations "s" = none ∧
    (sweep 5990 oneSessionManager).expirationChecks (bucketKey 5990) = none :=
  sweep_deletes_confirmed_and_drops_bucket 5990 oneSessionManager "s" (by decide)

/-- Claim C9: the bucket key is the decimal string of the 0-59 seconds
component of the timestamp alone, so two timestamps exactly 60 s apart always
get the same key. -/
theorem bucketKey_minute_collision (t : Nat) :
    bucketKey t = Nat.repr (t / 1000 % 60) ∧
    bucketKey (t + 60 * 1000) = bucketKey t := by
  refine ⟨rfl, ?_⟩
  unfold bucketKey secondOf
  congr 1
  omega

end SessionCleaner

namespace LimitServiceTime

/-- Claim C10: HandleRequest returns true on every invocation, for every user
and every process duration, including when the ticker goroutine kills the
request; and the cutoff fires once accumulated TimeUsed reaches 9 seconds
(maxFreeProcessingTimeSeconds - 1), not 10, as the concrete non-premium run
shows: a 12-second process is cut off with TimeUsed = 9 and still yields
true. -/
theorem handleRequest_always_true_cutoff_at_nine (n : Nat) (u : User) (i : Int) :
    (HandleRequest n u).2 = true ∧
    freeTimeExhausted u = (!u.IsPremium && decide (u.TimeUsed ≥ 9)) ∧
    HandleRequest 12 { ID := i, IsPremium := false, TimeUsed := 0 } =
      ({ ID := i, IsPremium := false, TimeUsed := 9 }, true) := by
  refine ⟨rfl, ?_, ?_⟩
  · have h9 : maxFreeProcessingTimeSeconds - 1 = 9 := by decide
    simp [freeTimeExhausted, h9]
  · rfl

end LimitServiceTime
